import Mathlib

/-!
Verification of the backup-data worker: a shallow embedding of the
block-range scan loop (`src/main/workerBackupData.ts`), the message
publisher (`src/services/message.service.ts`), and the hand-rolled
SigV4-style signing and delivery client (`src/services/sqs.service.ts`),
together with theorems settling the specification's claims about them.

Cryptographic primitives (SHA-256, HMAC-SHA-256, hex encoding) are calls
into an external library in the source; they are modelled abstractly as a
bundle of pure functions on byte strings, which every definition is
parametrised over. External collaborators (the chain log source, the HTTP
transport, the wall clock) are likewise passed in as function parameters,
mirroring the code's calls to them.
-/

namespace BackupData

/-- Abstract cryptographic primitives used by the signer: `hmacSha256 key msg`
is the raw HMAC-SHA-256 digest (a byte string), `sha256Hex msg` is the
hex-encoded SHA-256 digest, and `hexEncode` hex-encodes a raw digest.
These stand for the Node `crypto` library calls in `sqs.service.ts`. -/
structure CryptoPrims where
  hmacSha256 : String → String → String
  sha256Hex : String → String
  hexEncode : String → String

/-- Static header fields of the SQS configuration object (`sqsConfig.headers`). -/
structure SQSHeadersCfg where
  target : String
  contentType : String
deriving DecidableEq

/-- Credential fields of the SQS configuration object (`sqsConfig.credentials`). -/
structure SQSCredentials where
  accessKey : String
  secretKey : String
  region : String
deriving DecidableEq

/-- The module-level `sqsConfig` value of `sqs.service.ts`. -/
structure SQSConfig where
  method : String
  service : String
  algorithm : String
  host : String
  headers : SQSHeadersCfg
  credentials : SQSCredentials
deriving DecidableEq

/-- Embedding of `createCanonicalRequest` (`sqs.service.ts` lines 84-101).
`payloadJson` is the result of `JSON.stringify(payload)`, whose hash is the
last line of the canonical request. -/
def createCanonicalRequest (c : CryptoPrims) (cfg : SQSConfig)
    (method host payloadJson amzDate : String) : String :=
  let canonicalUri := "/"
  let canonicalQuerystring := ""
  let canonicalHeaders :=
    "content-type:" ++ cfg.headers.contentType ++ "\nhost:" ++ host ++
      "\nx-amz-date:" ++ amzDate ++ "\nx-amz-target:" ++ cfg.headers.target ++ "\n"
  let signedHeaders := "content-type;host;x-amz-date;x-amz-target"
  let payloadHash := c.sha256Hex payloadJson
  method ++ "\n" ++ canonicalUri ++ "\n" ++ canonicalQuerystring ++ "\n" ++
    canonicalHeaders ++ "\n" ++ signedHeaders ++ "\n" ++ payloadHash

/-- Embedding of `createStringToSign` (`sqs.service.ts` lines 110-122). -/
def createStringToSign (c : CryptoPrims) (cfg : SQSConfig)
    (amzDate dateStamp canonicalRequest : String) : String :=
  let credentialScope :=
    dateStamp ++ "/" ++ cfg.credentials.region ++ "/" ++ cfg.service ++ "/aws4_request"
  let hashCanonicalRequest := c.sha256Hex canonicalRequest
  cfg.algorithm ++ "\n" ++ amzDate ++ "\n" ++ credentialScope ++ "\n" ++ hashCanonicalRequest

/-- Embedding of `getSignatureKey` (`sqs.service.ts` lines 132-159): the four
chained HMAC-SHA-256 operations deriving the signing key. -/
def getSignatureKey (c : CryptoPrims)
    (key dateStamp regionName serviceName : String) : String :=
  let kDate := c.hmacSha256 ("AWS4" ++ key) dateStamp
  let kRegion := c.hmacSha256 kDate regionName
  let kService := c.hmacSha256 kRegion serviceName
  let kSigning := c.hmacSha256 kService "aws4_request"
  kSigning

/-- Embedding of `calculateAuthParam` (`sqs.service.ts` lines 167-178). -/
def calculateAuthParam (c : CryptoPrims) (cfg : SQSConfig)
    (dateStamp stringToSign : String) : String :=
  let signingKey :=
    getSignatureKey c cfg.credentials.secretKey dateStamp cfg.credentials.region cfg.service
  let signature := c.hexEncode (c.hmacSha256 signingKey stringToSign)
  let signedHeaders := "content-type;host;x-amz-date;x-amz-target"
  let credentialScope :=
    dateStamp ++ "/" ++ cfg.credentials.region ++ "/" ++ cfg.service ++ "/aws4_request"
  cfg.algorithm ++ " Credential=" ++ cfg.credentials.accessKey ++ "/" ++ credentialScope ++
    ", SignedHeaders=" ++ signedHeaders ++ ", Signature=" ++ signature

/-- The full Authorization-header pipeline as `sendMessageToSQS` composes it
(`sqs.service.ts` lines 37-48): derive the date stamp from the timestamp,
build the canonical request and the string to sign, then the header. -/
def authorizationHeaderFor (c : CryptoPrims) (cfg : SQSConfig)
    (payloadJson amzDate : String) : String :=
  let dateStamp := amzDate.take 8
  let canonicalRequest := createCanonicalRequest c cfg cfg.method cfg.host payloadJson amzDate
  let stringToSign := createStringToSign c cfg amzDate dateStamp canonicalRequest
  calculateAuthParam c cfg dateStamp stringToSign

/-- Input record of the Signer contract as the spec states it (spec section 4.1),
extended with the fixed protocol constants (algorithm name, content type,
target) that the spec's template refers to symbolically. -/
structure SignerInput where
  httpMethod : String
  host : String
  canonicalPayloadJson : String
  timestamp : String
  secretKey : String
  accessKeyId : String
  region : String
  serviceName : String
  algorithm : String
  contentType : String
  target : String

/-- Modelled from the spec: section 4.1 step 2, the canonical request template
METHOD, slash, empty query string, the four canonical headers, the signed
header list, and the hex SHA-256 of the payload JSON. -/
def specCanonicalRequest (c : CryptoPrims) (i : SignerInput) : String :=
  i.httpMethod ++ "\n" ++ "/" ++ "\n" ++ "" ++ "\n" ++
    ("content-type:" ++ i.contentType ++ "\nhost:" ++ i.host ++
      "\nx-amz-date:" ++ i.timestamp ++ "\nx-amz-target:" ++ i.target ++ "\n") ++
    "\n" ++ "content-type;host;x-amz-date;x-amz-target" ++ "\n" ++
    c.sha256Hex i.canonicalPayloadJson

/-- Modelled from the spec: section 4.1 step 3, the string to sign. -/
def specStringToSign (c : CryptoPrims) (i : SignerInput) (dateStamp : String) : String :=
  i.algorithm ++ "\n" ++ i.timestamp ++ "\n" ++
    (dateStamp ++ "/" ++ i.region ++ "/" ++ i.serviceName ++ "/aws4_request") ++ "\n" ++
    c.sha256Hex (specCanonicalRequest c i)

/-- Modelled from the spec: section 4.1 step 4, the four chained HMAC-SHA-256
operations deriving the signing key. -/
def specSigningKey (c : CryptoPrims) (i : SignerInput) (dateStamp : String) : String :=
  let kDate := c.hmacSha256 ("AWS4" ++ i.secretKey) dateStamp
  let kRegion := c.hmacSha256 kDate i.region
  let kService := c.hmacSha256 kRegion i.serviceName
  c.hmacSha256 kService "aws4_request"

/-- Modelled from the spec: section 4.1 steps 1 and 5-6, the Authorization
header: the date stamp is the first 8 characters of the timestamp, the
signature is the hex HMAC of the string to sign under the signing key, and the
header is assembled in the Credential / SignedHeaders / Signature format. -/
def specAuthorizationHeader (c : CryptoPrims) (i : SignerInput) : String :=
  let dateStamp := i.timestamp.take 8
  let signature :=
    c.hexEncode (c.hmacSha256 (specSigningKey c i dateStamp) (specStringToSign c i dateStamp))
  i.algorithm ++ " Credential=" ++ i.accessKeyId ++ "/" ++
    (dateStamp ++ "/" ++ i.region ++ "/" ++ i.serviceName ++ "/aws4_request") ++
    ", SignedHeaders=" ++ "content-type;host;x-amz-date;x-amz-target" ++
    ", Signature=" ++ signature

/-- Signer input corresponding to a given configuration, payload and timestamp. -/
def signerInputOf (cfg : SQSConfig) (payloadJson amzDate : String) : SignerInput :=
  { httpMethod := cfg.method
  , host := cfg.host
  , canonicalPayloadJson := payloadJson
  , timestamp := amzDate
  , secretKey := cfg.credentials.secretKey
  , accessKeyId := cfg.credentials.accessKey
  , region := cfg.credentials.region
  , serviceName := cfg.service
  , algorithm := cfg.algorithm
  , contentType := cfg.headers.contentType
  , target := cfg.headers.target }

/-- Errors thrown by JavaScript code are modelled as strings. -/
abbrev Err := String

/-- Decoded HTTP response bodies (the result of `res.json()`) are modelled as
strings. -/
abbrev Resp := String

/-- The UTC fields of a JavaScript `Date` object, named after the getters the
code reads (`getUTCMonth` is 0-based, as in JavaScript). -/
structure DateParts where
  utcFullYear : Nat
  utcMonth : Nat
  utcDate : Nat
  utcHours : Nat
  utcMinutes : Nat
  utcSeconds : Nat
deriving DecidableEq

/-- Embedding of `String(n).padStart(2, "0")`. -/
def padStart2 (n : Nat) : String :=
  if (toString n).length < 2 then "0" ++ toString n else toString n

/-- Embedding of the `amzDate` construction at the top of `sendMessageToSQS`
(`sqs.service.ts` lines 29-36). -/
def formatAmzDate (d : DateParts) : String :=
  toString d.utcFullYear ++ padStart2 (d.utcMonth + 1) ++ padStart2 d.utcDate ++
    "T" ++ padStart2 d.utcHours ++ padStart2 d.utcMinutes ++ padStart2 d.utcSeconds ++ "Z"

/-- One HTTP request as issued by the `fetch` call inside the retry loop of
`sendMessageToSQS`: the headers and body actually sent on one attempt. -/
structure SQSRequest where
  amzDate : String
  target : String
  contentType : String
  authorization : String
  body : String
deriving DecidableEq

/-- The retry loop of `sendMessageToSQS` (`sqs.service.ts` lines 51-73).
`attemptOutcome idx` is the combined outcome of the `fetch` and `res.json()`
calls on attempt `idx`; an exception there is caught by the loop's `catch`
and the next iteration runs. The result is the list of requests issued (each
sent with the headers in `req`, computed once before the loop) paired with
the decoded response of the first successful attempt, or `none` when every
attempt threw (delivery exhausted). -/
def sqsRetryLoop (attemptOutcome : Nat → Except Err Resp) (req : SQSRequest) :
    Nat → Nat → List SQSRequest × Option Resp
  | 0, _ => ([], none)
  | k + 1, idx =>
    match attemptOutcome idx with
    | .ok r => ([req], some r)
    | .error _ =>
      let rest := sqsRetryLoop attemptOutcome req k (idx + 1)
      (req :: rest.1, rest.2)

/-- Embedding of `sendMessageToSQS` (`sqs.service.ts` lines 28-74). The clock
is read exactly once, at entry (`const now = new Date()`), which the model
makes explicit by consuming only `clock 0`; `clock i` for `i > 0` is the
wall-clock time at attempt `i`, available to the environment but never read
by the code. `ser` is the result of `JSON.stringify(payload)`: it is
evaluated before the retry loop (inside `createCanonicalRequest`), outside
any try/catch, so its failure propagates out of the function. `maxTries` is
`+CONSTANTS.MAX_TRIES_BEFORE_RETRY`, an integer: when it is zero or negative
the `for` loop body never runs. Returns the request trace and the delivery
result. -/
def sendMessageToSQSModel (c : CryptoPrims) (cfg : SQSConfig)
    (clock : Nat → DateParts) (ser : Except Err String) (maxTries : Int)
    (attemptOutcome : Nat → Except Err Resp) :
    Except Err (List SQSRequest × Option Resp) := do
  let now := clock 0
  let amzDate := formatAmzDate now
  let payloadJson ← ser
  let authorizationHeader := authorizationHeaderFor c cfg payloadJson amzDate
  let req : SQSRequest :=
    { amzDate := amzDate
    , target := cfg.headers.target
    , contentType := cfg.headers.contentType
    , authorization := authorizationHeader
    , body := payloadJson }
  pure (sqsRetryLoop attemptOutcome req maxTries.toNat 0)

/-- The request built once before the retry loop of `sendMessageToSQS`: its
headers, including the Authorization value, are a function of the payload
JSON and of the single timestamp read at entry. -/
def sentRequest (c : CryptoPrims) (cfg : SQSConfig) (s amzDate : String) : SQSRequest :=
  { amzDate := amzDate
  , target := cfg.headers.target
  , contentType := cfg.headers.contentType
  , authorization := authorizationHeaderFor c cfg s amzDate
  , body := s }

/-- Number of attempts the retry loop makes: it stops at the first success,
otherwise runs out its bound. -/
def attemptsMade (outcome : Nat → Except Err Resp) : Nat → Nat → Nat
  | 0, _ => 0
  | k + 1, idx =>
    match outcome idx with
    | .ok _ => 1
    | .error _ => 1 + attemptsMade outcome k (idx + 1)

/-- Delivery result of the retry loop: the first successful decoded response,
or `none` when every attempt within the bound throws. -/
def deliveryOutcome (outcome : Nat → Except Err Resp) : Nat → Nat → Option Resp
  | 0, _ => none
  | k + 1, idx =>
    match outcome idx with
    | .ok r => some r
    | .error _ => deliveryOutcome outcome k (idx + 1)

/-- The payload object built by `sendMessage` (`message.service.ts` lines
47-52): queue URL, serialized message body, and the group and deduplication
identifiers derived from the transaction coordinates. -/
structure QueueEnvelope where
  queueUrl : String
  messageBody : String
  messageGroupId : String
  messageDeduplicationId : String
deriving DecidableEq

/-- Construction of the queue envelope, with both identifiers the literal
string txHash/txIndex/logIndex. -/
def mkQueueEnvelope (queueUrl message txHash : String) (txIndex logIndex : Nat) :
    QueueEnvelope :=
  { queueUrl := queueUrl
  , messageBody := message
  , messageGroupId := txHash ++ "/" ++ toString txIndex ++ "/" ++ toString logIndex
  , messageDeduplicationId := txHash ++ "/" ++ toString txIndex ++ "/" ++ toString logIndex }

/-- Canonical rendering of a queue envelope, standing for the
`JSON.stringify(payload)` applied to it inside `sendMessageToSQS`. The exact
JSON text is immaterial to the claims; only that it is a total function of
the envelope. -/
def renderEnvelope (env : QueueEnvelope) : String :=
  env.queueUrl ++ "|" ++ env.messageBody ++ "|" ++ env.messageGroupId ++ "|" ++
    env.messageDeduplicationId

/-- Embedding of `sendMessage` (`message.service.ts` lines 13-79).
`serMessage` is the result of `JSON.stringify` applied to the message-body
object: in the source this runs at the top of the function, before the
`try` block, so its failure propagates to the caller. Inside the `try`, the
envelope is built and the Delivery Client invoked; any exception there
(including one thrown by `sendMessageToSQS` itself) is caught, logged and
swallowed, and the function returns normally. `blockNumber` is carried only
into log output in the source. -/
def sendMessage (serMessage : Except Err String)
    (deliver : QueueEnvelope → Except Err (List SQSRequest × Option Resp))
    (queueUrl txHash : String) (txIndex logIndex blockNumber : Nat) : Except Err Unit :=
  match serMessage with
  | .error e => .error e
  | .ok message =>
    let payload := mkQueueEnvelope queueUrl message txHash txIndex logIndex
    match deliver payload with
    | .ok _ => .ok ()
    | .error _ => .ok ()

/-- Decoded arguments of a TokenMigrated log (`EventArgs` in
`src/unnamed/part_000`). The two amounts are arbitrary-precision integers in
base units (`ethers.BigNumber`), modelled as rationals so that the 10^18
scaling of the transformer is exact. -/
structure EventArgs where
  token : String
  pairAddress : String
  amountToken : ℚ
  amountETH : ℚ
deriving DecidableEq

/-- One raw chain log as the scan loop receives it from `queryFilter`. `args`
is `none` when the log lacks its decoded argument tuple, in which case the
destructuring at the top of `processEvent` throws. -/
structure RawEvent where
  args : Option EventArgs
  blockNumber : Nat
  transactionHash : String
  transactionIndex : Nat
  logIndex : Nat
deriving DecidableEq

/-- The canonical message payload (`TokenMigratedDataType` in
`src/unnamed/part_000`). -/
structure TokenMigratedDataType where
  tokenAddress : String
  poolId : String
  amountToken : ℚ
  amountETH : ℚ
  timestamp : Nat
  transactionHash : String
deriving DecidableEq

/-- Modelled from the spec: the constants module (`src/constants`) is not
under `src/`; the spec states the block timestamp in seconds "is multiplied
by 1000 to produce milliseconds", so `AMOUNT_TO_MILLISECONDS` is 1000. -/
def AMOUNT_TO_MILLISECONDS : Nat := 1000

/-- JavaScript `String.prototype.toUpperCase`, modelled character-wise (the
inputs here are ASCII hex addresses). -/
def toUpperCase (s : String) : String := String.mk (s.data.map Char.toUpper)

/-- Base units per whole token: the `ethers.utils.formatEther` scaling. -/
def weiPerEther : ℚ := 10 ^ 18

/-- The Event Transformer: the `migrationData` construction inside
`processEvent` (`workerBackupData.ts` utils, `processEvent` lines 179-194).
Addresses are upper-cased, amounts divided by 10^18 (the source goes through
`Number(ethers.utils.formatEther(...))`; the exact rational value is used
here), and the block timestamp is scaled to milliseconds. -/
def transformEvent (args : EventArgs) (blockTimestamp : Nat) (txHash : String) :
    TokenMigratedDataType :=
  { tokenAddress := toUpperCase args.token
  , poolId := toUpperCase args.pairAddress
  , amountToken := args.amountToken / weiPerEther
  , amountETH := args.amountETH / weiPerEther
  , timestamp := blockTimestamp * AMOUNT_TO_MILLISECONDS
  , transactionHash := txHash }

/-- Canonical rendering of the message-body object
`JSON.stringify(type, msg, txHash, txIndex, logIndex, blockNumber)` built at
the top of `sendMessage`. All fields are strings and numbers, so the source's
`JSON.stringify` is total on this shape; the exact JSON text is immaterial to
the claims. -/
def renderMigrationBody (eventType : String) (data : TokenMigratedDataType)
    (txHash : String) (txIndex logIndex blockNumber : Nat) : String :=
  eventType ++ "|" ++ data.tokenAddress ++ "|" ++ data.poolId ++ "|" ++
    toString data.amountToken ++ "|" ++ toString data.amountETH ++ "|" ++
    toString data.timestamp ++ "|" ++ data.transactionHash ++ "|" ++
    txHash ++ "|" ++ toString txIndex ++ "|" ++ toString logIndex ++ "|" ++
    toString blockNumber

/-- Embedding of `processEvent` (utils of `workerBackupData.ts`, lines
175-204): destructure the event arguments (throwing when absent), fetch the
block timestamp (`getBlockTimestamp`, the `provider.getBlock` collaborator),
transform, and publish via `sendMessage`. -/
def processEvent (getBlockTimestamp : Nat → Except Err Nat)
    (deliver : QueueEnvelope → Except Err (List SQSRequest × Option Resp))
    (queueUrl : String) (ev : RawEvent) : Except Err Unit := do
  let args ← match ev.args with
    | some a => Except.ok a
    | none => Except.error "TypeError: cannot destructure event args"
  let blockTimestamp ← getBlockTimestamp ev.blockNumber
  let migrationData := transformEvent args blockTimestamp ev.transactionHash
  sendMessage
    (Except.ok (renderMigrationBody "TokenMigrated" migrationData ev.transactionHash
      ev.transactionIndex ev.logIndex ev.blockNumber))
    deliver queueUrl ev.transactionHash ev.transactionIndex ev.logIndex ev.blockNumber

/-- The per-window counters (`ProcessingContext` in `src/unnamed/part_000`). -/
structure ProcessingContext where
  fromBlock : Nat
  toBlock : Nat
  eventCount : Nat
  processedCount : Nat
  failedCount : Nat
deriving DecidableEq

/-- The per-event loop inside one window (`workerBackupData.ts` lines 63-78):
each event is attempted once; a success increments `processedCount`, a caught
exception increments `failedCount`, and processing continues with the next
event either way. -/
def processWindowEvents (step : RawEvent → Except Err Unit) :
    List RawEvent → ProcessingContext → ProcessingContext
  | [], ctx => ctx
  | ev :: rest, ctx =>
    match step ev with
    | .ok _ => processWindowEvents step rest { ctx with processedCount := ctx.processedCount + 1 }
    | .error _ => processWindowEvents step rest { ctx with failedCount := ctx.failedCount + 1 }

/-- The fresh context created at the top of each loop iteration
(`workerBackupData.ts` lines 40-46, with `toBlock` and `eventCount` as set on
lines 49-57). -/
def initContext (fromBlock toBlock eventCount : Nat) : ProcessingContext :=
  { fromBlock := fromBlock
  , toBlock := toBlock
  , eventCount := eventCount
  , processedCount := 0
  , failedCount := 0 }

/-- Outcome of one iteration of the scan `while` loop: either the window was
processed and the loop advances after the normal delay, or the window-level
`catch` ran and the loop retries the same `fromBlock` after the extended
delay. -/
inductive IterOutcome where
  | advanced (ctx : ProcessingContext) (nextFromBlock delay : Nat)
  | windowFailed (nextFromBlock delay : Nat)
deriving DecidableEq

/-- One iteration of the scan loop body (`workerBackupData.ts` lines 39-99):
compute `toBlock = min(fromBlock + windowSize, currentBlock)`, query the logs
(`query`, the `contract.queryFilter` collaborator), process each event, then
advance `fromBlock = toBlock + 1` and pause `retryDelay`; when the query
throws, the `catch` leaves `fromBlock` unchanged and pauses `retryDelay * 2`. -/
def scanIteration (retryDelay windowSize currentBlock : Nat)
    (query : Nat → Nat → Except Err (List RawEvent))
    (step : RawEvent → Except Err Unit) (fromBlock : Nat) : IterOutcome :=
  let toBlock := min (fromBlock + windowSize) currentBlock
  match query fromBlock toBlock with
  | .error _ => .windowFailed fromBlock (retryDelay * 2)
  | .ok events =>
    let ctx := processWindowEvents step events (initContext fromBlock toBlock events.length)
    .advanced ctx (toBlock + 1) retryDelay

/-- The scan `while` loop unrolled on fuel, returning the list of
(fromBlock, toBlock) windows of the successfully processed iterations.
`currentBlock` is captured once, before the loop, and never re-read — the
model reflects this by fixing it as a parameter across iterations. -/
def scanLoopWindows (retryDelay windowSize currentBlock : Nat)
    (query : Nat → Nat → Except Err (List RawEvent))
    (step : RawEvent → Except Err Unit) : Nat → Nat → List (Nat × Nat)
  | 0, _ => []
  | fuel + 1, fromBlock =>
    if fromBlock < currentBlock then
      match scanIteration retryDelay windowSize currentBlock query step fromBlock with
      | .advanced ctx next _ =>
        (ctx.fromBlock, ctx.toBlock) ::
          scanLoopWindows retryDelay windowSize currentBlock query step fuel next
      | .windowFailed next _ =>
        scanLoopWindows retryDelay windowSize currentBlock query step fuel next
    else []

/-- The value of the loop variable `fromBlock` after `n` iterations of the
scan loop. -/
def scanFromBlockAfter (retryDelay windowSize currentBlock : Nat)
    (query : Nat → Nat → Except Err (List RawEvent))
    (step : RawEvent → Except Err Unit) : Nat → Nat → Nat
  | 0, fromBlock => fromBlock
  | n + 1, fromBlock =>
    if fromBlock < currentBlock then
      match scanIteration retryDelay windowSize currentBlock query step fromBlock with
      | .advanced _ next _ =>
        scanFromBlockAfter retryDelay windowSize currentBlock query step n next
      | .windowFailed next _ =>
        scanFromBlockAfter retryDelay windowSize currentBlock query step n next
    else fromBlock

/-- The `CREDENTIALS` field of the AWS configuration object (README shape). -/
structure AwsCredentialsCfg where
  ACCESS_KEY_ID : String
  SECRET_ACCESS_KEY : String
deriving DecidableEq

/-- The `AWS` field of the configuration object consumed by
`validateAwsConfig`. Absent or falsy string fields are modelled as the empty
string, matching JavaScript truthiness on the `!FIELD` checks. -/
structure AwsCfg where
  REGION : String
  CREDENTIALS : AwsCredentialsCfg
  SQS_QUEUE_URL : String
deriving DecidableEq

/-- The region allow-list of `validateAwsConfig` (utils of
`workerBackupData.ts`). -/
def VALID_AWS_REGIONS : List String :=
  ["us-east-1", "us-east-2", "us-west-1", "us-west-2",
   "ap-south-1", "ap-northeast-1", "ap-northeast-2", "ap-northeast-3",
   "ap-southeast-1", "ap-southeast-2",
   "eu-central-1", "eu-west-1", "eu-west-2", "eu-west-3",
   "sa-east-1"]

/-- Embedding of `validateAwsConfig` (utils of `workerBackupData.ts`, lines
221-280): check configuration presence, region validity, credentials and
queue URL, then probe the queue (`getQueueAttributes`, the live SQS
collaborator); each failure throws. -/
def validateAwsConfig (cfg : Option AwsCfg) (getQueueAttributes : Except Err Unit) :
    Except Err Unit :=
  match cfg with
  | none => .error "CONFIG_NOT_FOUND: AWS configuration not found"
  | some aws =>
    if aws.REGION = "" then
      .error "REGION_INVALID: AWS Region is required"
    else if ¬ (aws.REGION ∈ VALID_AWS_REGIONS) then
      .error "REGION_INVALID: Invalid region in config"
    else if aws.CREDENTIALS.ACCESS_KEY_ID = "" ∨ aws.CREDENTIALS.SECRET_ACCESS_KEY = "" then
      .error "CREDENTIALS_MISSING: AWS Credentials are required"
    else if aws.SQS_QUEUE_URL = "" then
      .error "QUEUE_URL_MISSING: SQS Queue URL is required"
    else
      match getQueueAttributes with
      | .ok _ => .ok ()
      | .error e => .error ("AWS_SERVICE_ERROR: " ++ e)

/-- Embedding of `scanTokenMigratedEvents` at the control-flow level
(`workerBackupData.ts` lines 14-116): the configuration-validation failure is
caught by the first `try`, printed with `console.error`, and the function
returns normally without scanning; otherwise the scan body runs, and an
exception escaping it is logged and re-thrown. The boolean records whether
scanning started. -/
def scanTokenMigratedEvents (cfg : Option AwsCfg) (queueProbe : Except Err Unit)
    (scanBody : Except Err Unit) : Bool × Except Err Unit :=
  match validateAwsConfig cfg queueProbe with
  | .error _ => (false, .ok ())
  | .ok _ =>
    match scanBody with
    | .ok _ => (true, .ok ())
    | .error e => (true, .error e)

/-- Embedding of the entry point (`workerBackupData.ts` lines 122-132): the
promise returned by `scanTokenMigratedEvents` resolves to exit status 0;
a rejection is caught and the process exits with status 1. -/
def mainExitStatus (cfg : Option AwsCfg) (queueProbe : Except Err Unit)
    (scanBody : Except Err Unit) : Nat :=
  match (scanTokenMigratedEvents cfg queueProbe scanBody).2 with
  | .ok _ => 0
  | .error _ => 1

/-- Concrete cryptographic primitives for counterexamples and witnesses:
symbolic byte strings recording the operations applied. -/
def cexCrypto : CryptoPrims :=
  { hmacSha256 := fun k m => "hmac(" ++ k ++ "|" ++ m ++ ")"
  , sha256Hex := fun m => "sha(" ++ m ++ ")"
  , hexEncode := fun b => "hex(" ++ b ++ ")" }

/-- Concrete SQS configuration for counterexamples and witnesses, shaped like
the module-level `sqsConfig` of `sqs.service.ts`. -/
def cexCfg : SQSConfig :=
  { method := "POST"
  , service := "sqs"
  , algorithm := "AWS4-HMAC-SHA256"
  , host := "sqs.us-east-1.amazonaws.com"
  , headers := { target := "AmazonSQS.SendMessage", contentType := "application/x-amz-json-1.0" }
  , credentials := { accessKey := "AKID", secretKey := "KEY", region := "us-east-1" } }

/-- Concrete wall clock that ticks one second per attempt index. -/
def cexClock : Nat → DateParts := fun i =>
  { utcFullYear := 2024, utcMonth := 0, utcDate := 1
  , utcHours := 0, utcMinutes := 0, utcSeconds := i }

/-- The concrete delivery run used by the C2 counterexample: two attempts,
transport failing on both, against a clock that ticks between attempts. -/
def cexRun2 : List SQSRequest × Option Resp :=
  ((sendMessageToSQSModel cexCrypto cexCfg cexClock (Except.ok "payload") 2
    (fun _ => Except.error "network")).toOption).getD ([], none)

/-- Whether a processing attempt succeeded (true) or threw (false). -/
def exceptOk : Except Err Unit → Bool
  | .ok _ => true
  | .error _ => false

/-- Decoded arguments of the end-to-end scenario's raw event: amounts are in
base units, 2 tokens and 1 ETH at 18 decimals. -/
def cexArgsMigrated : EventArgs :=
  { token := "0xabc"
  , pairAddress := "0xdef"
  , amountToken := 2000000000000000000
  , amountETH := 1000000000000000000 }

/-- The end-to-end scenario's raw event. -/
def cexEventMigrated : RawEvent :=
  { args := some cexArgsMigrated
  , blockNumber := 42
  , transactionHash := "0x1"
  , transactionIndex := 0
  , logIndex := 0 }

/-- The canonical message the end-to-end scenario must produce. -/
def msgMigrated : TokenMigratedDataType :=
  { tokenAddress := "0XABC"
  , poolId := "0XDEF"
  , amountToken := 2
  , amountETH := 1
  , timestamp := 1700000000000
  , transactionHash := "0x1" }

/-- Serialized message body of the end-to-end scenario. -/
def bodyMigrated : String := renderMigrationBody "TokenMigrated" msgMigrated "0x1" 0 0 42

/-- Queue envelope of the end-to-end scenario. -/
def envMigrated : QueueEnvelope := mkQueueEnvelope "https://queue" bodyMigrated "0x1" 0 0

/-- A delivery client whose transport always throws, so that every call
exhausts its three attempts. -/
def cexDeliverExhausted : QueueEnvelope → Except Err (List SQSRequest × Option Resp) :=
  fun env =>
    sendMessageToSQSModel cexCrypto cexCfg cexClock (Except.ok (renderEnvelope env)) 3
      (fun _ => Except.error "ECONNRESET")

/-- The per-event step of the scan loop wired to the always-exhausting
delivery client. -/
def cexStepExhausted : RawEvent → Except Err Unit :=
  processEvent (fun _ => Except.ok 1700000000) cexDeliverExhausted "https://queue"

/-- A log query that always succeeds with an empty window. -/
def okQuery : Nat → Nat → Except Err (List RawEvent) := fun _ _ => Except.ok []

/-- A log query that always throws. -/
def failQuery : Nat → Nat → Except Err (List RawEvent) := fun _ _ => Except.error "rate limited"

/-- A per-event step that always succeeds. -/
def okStep : RawEvent → Except Err Unit := fun _ => Except.ok ()

/-- An AWS configuration with an invalid region. -/
def cexBadCfg : AwsCfg :=
  { REGION := "mars-central-1"
  , CREDENTIALS := { ACCESS_KEY_ID := "AKID", SECRET_ACCESS_KEY := "KEY" }
  , SQS_QUEUE_URL := "https://queue" }

/-- A valid AWS configuration. -/
def cexGoodCfg : AwsCfg :=
  { REGION := "us-east-1"
  , CREDENTIALS := { ACCESS_KEY_ID := "AKID", SECRET_ACCESS_KEY := "KEY" }
  , SQS_QUEUE_URL := "https://queue" }

end BackupData

namespace BackupData

/-- C8: for every choice of cryptographic primitives, configuration, payload
and timestamp, the Authorization header computed by the code path of
`sendMessageToSQS` (canonical request, string to sign, four chained HMACs,
header assembly) equals the header prescribed by the spec's reference
algorithm, deterministically and with no side effects. -/
theorem calculateAuthParam_matches_spec (c : CryptoPrims) (cfg : SQSConfig)
    (payloadJson amzDate : String) :
    authorizationHeaderFor c cfg payloadJson amzDate =
      specAuthorizationHeader c (signerInputOf cfg payloadJson amzDate) := by
  simp only [authorizationHeaderFor, specAuthorizationHeader, calculateAuthParam,
    getSignatureKey, specSigningKey, createCanonicalRequest, specCanonicalRequest,
    createStringToSign, specStringToSign, signerInputOf, String.append_assoc]

/-- Characterisation of the retry loop: it issues `attemptsMade` copies of the
one pre-computed request and returns `deliveryOutcome`. -/
theorem sqsRetryLoop_eq (outcome : Nat → Except Err Resp) (req : SQSRequest) :
    ∀ k idx, sqsRetryLoop outcome req k idx =
      (List.replicate (attemptsMade outcome k idx) req, deliveryOutcome outcome k idx) := by
  intro k
  induction k with
  | zero => intro idx; rfl
  | succ k ih =>
    intro idx
    simp only [sqsRetryLoop, attemptsMade, deliveryOutcome]
    cases outcome idx with
    | ok r => rfl
    | error e => simp [ih (idx + 1), List.replicate_add]

/-- C2 counterexample: with a clock that ticks between attempts and a
transport that always fails, a two-attempt delivery sends the same
`X-Amz-Date` and the same `Authorization` value on both attempts; the second
attempt's timestamp is the one read at call entry, not the wall-clock time at
that attempt. So a signature is reused across attempts, refuting the claim
that each retry regenerates the timestamp and signature from scratch. -/
theorem sendMessageToSQS_reuses_signature_cex :
    cexRun2.1.map SQSRequest.amzDate = ["20240101T000000Z", "20240101T000000Z"] ∧
      cexRun2.1.map SQSRequest.authorization =
        List.replicate 2 (authorizationHeaderFor cexCrypto cexCfg "payload" "20240101T000000Z") ∧
      formatAmzDate (cexClock 1) = "20240101T000001Z" ∧
      ("20240101T000000Z" : String) ≠ "20240101T000001Z" := by
  refine ⟨rfl, rfl, rfl, ?_⟩
  decide

/-- C2 (amended): the timestamp and the Authorization header are computed once
per `sendMessageToSQS` call, from the wall clock read at call entry, and every
retry attempt of that call resends exactly the same headers; no attempt
regenerates them from the time at that attempt. -/
theorem sendMessageToSQS_signature_computed_once (c : CryptoPrims) (cfg : SQSConfig)
    (clock : Nat → DateParts) (s : String) (maxTries : Int)
    (outcome : Nat → Except Err Resp) :
    sendMessageToSQSModel c cfg clock (Except.ok s) maxTries outcome =
      Except.ok (List.replicate (attemptsMade outcome maxTries.toNat 0)
          (sentRequest c cfg s (formatAmzDate (clock 0))),
        deliveryOutcome outcome maxTries.toNat 0) := by
  simp [sendMessageToSQSModel, sqsRetryLoop_eq, sentRequest, Except.bind]

/-- C10: when the payload's JSON serialization succeeds, `sendMessageToSQS`
never throws: it returns a decoded response body or `undefined`; and when the
configured maximum attempt count is zero or negative, it returns `undefined`
without issuing any network attempt. -/
theorem sendMessageToSQS_no_throw (c : CryptoPrims) (cfg : SQSConfig)
    (clock : Nat → DateParts) (s : String) (maxTries : Int)
    (outcome : Nat → Except Err Resp) :
    (∃ v, sendMessageToSQSModel c cfg clock (Except.ok s) maxTries outcome = Except.ok v) ∧
      (maxTries ≤ 0 →
        sendMessageToSQSModel c cfg clock (Except.ok s) maxTries outcome =
          Except.ok ([], none)) := by
  constructor
  · exact ⟨_, rfl⟩
  · intro h
    have hz : maxTries.toNat = 0 := Int.toNat_of_nonpos h
    simp [sendMessageToSQSModel, Except.bind, hz, sqsRetryLoop]

/-- Witness for C10 at a concrete input: with a maximum attempt count of
`-1`, delivery returns no response and issues no request. -/
theorem sendMessageToSQS_no_throw_witness :
    sendMessageToSQSModel cexCrypto cexCfg cexClock (Except.ok "p") (-1)
      (fun _ => Except.error "network") = Except.ok ([], none) :=
  (sendMessageToSQS_no_throw cexCrypto cexCfg cexClock "p" (-1)
    (fun _ => Except.error "network")).2 (by decide)

/-- C3 counterexample: when the `JSON.stringify` of the message body at the
top of `sendMessage` throws (it runs before the `try` block), the exception
escapes to the caller even though the Delivery Client behaves perfectly, so
`publish` does not hold its never-throws contract for every input. -/
theorem sendMessage_serialization_escapes_cex :
    sendMessage (Except.error "TypeError: Do not know how to serialize a BigInt")
      (fun _ => Except.ok ([], none)) "https://queue" "0x1" 0 0 7 =
      Except.error "TypeError: Do not know how to serialize a BigInt" := rfl

/-- Helper: once the message body is serialized, `sendMessage` swallows every
exception of envelope construction and delivery and returns normally. -/
theorem sendMessage_ok_of_serialized (message : String)
    (deliver : QueueEnvelope → Except Err (List SQSRequest × Option Resp))
    (queueUrl txHash : String) (txIndex logIndex blockNumber : Nat) :
    sendMessage (Except.ok message) deliver queueUrl txHash txIndex logIndex blockNumber =
      Except.ok () := by
  simp only [sendMessage]
  cases deliver (mkQueueEnvelope queueUrl message txHash txIndex logIndex) <;> rfl

/-- C3 (amended): for every input whose message-body serialization succeeds,
and every behaviour of the Delivery Client (including one that always
throws), `sendMessage` returns normally: exceptions from envelope
construction and from delivery are caught and swallowed. Only a failure of
the message-body `JSON.stringify`, which runs before the `try` block, can
escape. -/
theorem sendMessage_never_throws_after_serialization (message : String)
    (deliver : QueueEnvelope → Except Err (List SQSRequest × Option Resp))
    (queueUrl txHash : String) (txIndex logIndex blockNumber : Nat) :
    sendMessage (Except.ok message) deliver queueUrl txHash txIndex logIndex blockNumber =
      Except.ok () :=
  sendMessage_ok_of_serialized message deliver queueUrl txHash txIndex logIndex blockNumber

/-- Helper: the per-event loop leaves the window bounds and the event count
unchanged and adds to each counter exactly the number of events whose
processing attempt succeeded respectively threw. -/
theorem processWindowEvents_counts (step : RawEvent → Except Err Unit) :
    ∀ (events : List RawEvent) (ctx : ProcessingContext),
      (processWindowEvents step events ctx).fromBlock = ctx.fromBlock ∧
      (processWindowEvents step events ctx).toBlock = ctx.toBlock ∧
      (processWindowEvents step events ctx).eventCount = ctx.eventCount ∧
      (processWindowEvents step events ctx).processedCount =
        ctx.processedCount + events.countP (fun ev => exceptOk (step ev)) ∧
      (processWindowEvents step events ctx).failedCount =
        ctx.failedCount + events.countP (fun ev => !(exceptOk (step ev))) := by
  intro events
  induction events with
  | nil => intro ctx; simp [processWindowEvents, List.countP_nil]
  | cons ev rest ih =>
    intro ctx
    simp only [processWindowEvents, List.countP_cons]
    cases h : step ev with
    | ok v =>
      have hih := ih { ctx with processedCount := ctx.processedCount + 1 }
      simp [exceptOk, h] at hih ⊢
      omega
    | error e =>
      have hih := ih { ctx with failedCount := ctx.failedCount + 1 }
      simp [exceptOk, h] at hih ⊢
      omega

/-- Helper: every event lands in exactly one of the two counters, so the
success and failure counts partition the event list. -/
theorem countP_ok_add_countP_fail (step : RawEvent → Except Err Unit) :
    ∀ events : List RawEvent,
      events.countP (fun ev => exceptOk (step ev)) +
        events.countP (fun ev => !(exceptOk (step ev))) = events.length := by
  intro events
  induction events with
  | nil => simp
  | cons ev rest ih =>
    simp only [List.countP_cons, List.length_cons]
    cases h : exceptOk (step ev) <;> simp [h] <;> omega

/-- C7: after the per-event loop of a window completes,
`processedCount + failedCount = eventCount`: each queried event is attempted
exactly once and contributes to exactly one counter (successes to
`processedCount`, caught failures to `failedCount`), and a failing event does
not prevent later events of the same window from being attempted. -/
theorem window_counts_partition (step : RawEvent → Except Err Unit)
    (events : List RawEvent) (fromBlock toBlock : Nat) :
    (processWindowEvents step events (initContext fromBlock toBlock events.length)).processedCount +
        (processWindowEvents step events (initContext fromBlock toBlock events.length)).failedCount =
      (processWindowEvents step events (initContext fromBlock toBlock events.length)).eventCount ∧
    (processWindowEvents step events (initContext fromBlock toBlock events.length)).processedCount =
      events.countP (fun ev => exceptOk (step ev)) ∧
    (processWindowEvents step events (initContext fromBlock toBlock events.length)).failedCount =
      events.countP (fun ev => !(exceptOk (step ev))) := by
  obtain ⟨h1, h2, h3, h4, h5⟩ :=
    processWindowEvents_counts step events (initContext fromBlock toBlock events.length)
  have hsum := countP_ok_add_countP_fail step events
  simp only [initContext] at *
  simp at h1 h2 h3 h4 h5
  omega

/-- C9: the end-to-end scenario. The raw event with token 0xabc, pair 0xdef,
2 tokens and 1 ETH in base units, block 42, transaction hash 0x1 and indices
0/0, at block timestamp 1700000000, transforms to the canonical message with
upper-cased addresses, amounts scaled down by 10^18, and a millisecond
timestamp; and the publish pipeline hands the Delivery Client exactly the
queue envelope whose group and deduplication identifiers are both 0x1/0/0. -/
theorem token_migrated_end_to_end
    (deliver : QueueEnvelope → Except Err (List SQSRequest × Option Resp)) :
    transformEvent cexArgsMigrated 1700000000 "0x1" = msgMigrated ∧
      envMigrated.messageGroupId = "0x1/0/0" ∧
      envMigrated.messageDeduplicationId = "0x1/0/0" ∧
      processEvent (fun _ => Except.ok 1700000000) deliver "https://queue" cexEventMigrated =
        match deliver envMigrated with
        | .ok _ => Except.ok ()
        | .error _ => Except.ok () := by
  have harg : transformEvent cexArgsMigrated 1700000000 "0x1" = msgMigrated := by
    simp only [transformEvent, cexArgsMigrated, msgMigrated, weiPerEther,
      AMOUNT_TO_MILLISECONDS, TokenMigratedDataType.mk.injEq]
    refine ⟨by decide, by decide, by norm_num, by norm_num, by norm_num, trivial⟩
  refine ⟨harg, rfl, rfl, ?_⟩
  show sendMessage (Except.ok (renderMigrationBody "TokenMigrated"
      (transformEvent cexArgsMigrated 1700000000 "0x1") "0x1" 0 0 42))
      deliver "https://queue" "0x1" 0 0 42 = _
  rw [harg]
  simp only [sendMessage]
  rfl

/-- C1 counterexample: a delivery client whose transport always throws
exhausts all three of its attempts and returns no response (middle conjunct),
yet `processEvent` returns normally (last conjunct), so the scan loop counts
the event in `processedCount` and leaves `failedCount` at zero (first
conjunct) — refuting the claim that exhaustion is reported upward and counted
in `failedCount`. -/
theorem exhaustion_counted_as_processed_cex :
    processWindowEvents cexStepExhausted [cexEventMigrated] (initContext 100 120 1) =
      { fromBlock := 100, toBlock := 120, eventCount := 1
      , processedCount := 1, failedCount := 0 } ∧
    cexDeliverExhausted (mkQueueEnvelope "https://queue" "body" "0xt" 1 2) =
      Except.ok (List.replicate 3
        (sentRequest cexCrypto cexCfg
          (renderEnvelope (mkQueueEnvelope "https://queue" "body" "0xt" 1 2))
          "20240101T000000Z"), none) ∧
    cexStepExhausted cexEventMigrated = Except.ok () :=
  ⟨rfl, rfl, rfl⟩

/-- Helper: when every attempt throws, the retry loop runs out its full
bound. -/
theorem attemptsMade_of_fail (outcome : Nat → Except Err Resp)
    (hfail : ∀ i, ∃ e, outcome i = Except.error e) :
    ∀ k idx, attemptsMade outcome k idx = k := by
  intro k
  induction k with
  | zero => intro idx; rfl
  | succ k ih =>
    intro idx
    obtain ⟨e, he⟩ := hfail idx
    simp [attemptsMade, he, ih (idx + 1)]
    omega

/-- Helper: when every attempt throws, the retry loop yields no response. -/
theorem deliveryOutcome_of_fail (outcome : Nat → Except Err Resp)
    (hfail : ∀ i, ∃ e, outcome i = Except.error e) :
    ∀ k idx, deliveryOutcome outcome k idx = none := by
  intro k
  induction k with
  | zero => intro idx; rfl
  | succ k ih =>
    intro idx
    obtain ⟨e, he⟩ := hfail idx
    simp [deliveryOutcome, he, ih (idx + 1)]

/-- C1 (amended): when the Delivery Client exhausts all of its attempts, the
exhaustion is not reported upward at all: `sendMessageToSQS` returns
`undefined` without throwing (first conjunct), `processEvent` therefore
returns normally (second conjunct), and the scan loop counts the event in
`processedCount`, not `failedCount` (third conjunct); it is also not a
window-level or fatal error, since nothing escapes the per-event step. -/
theorem exhausted_delivery_counted_as_processed (c : CryptoPrims) (cfg : SQSConfig)
    (clock : Nat → DateParts) (queueUrl : String) (maxTries : Int)
    (failing : Nat → Except Err Resp) (ev : RawEvent) (a : EventArgs) (ts fb tb : Nat)
    (hargs : ev.args = some a)
    (hfail : ∀ i, ∃ e, failing i = Except.error e) :
    (∀ env, sendMessageToSQSModel c cfg clock (Except.ok (renderEnvelope env)) maxTries failing =
        Except.ok (List.replicate maxTries.toNat
          (sentRequest c cfg (renderEnvelope env) (formatAmzDate (clock 0))), none)) ∧
      processEvent (fun _ => Except.ok ts)
          (fun env =>
            sendMessageToSQSModel c cfg clock (Except.ok (renderEnvelope env)) maxTries failing)
          queueUrl ev = Except.ok () ∧
      processWindowEvents
          (processEvent (fun _ => Except.ok ts)
            (fun env =>
              sendMessageToSQSModel c cfg clock (Except.ok (renderEnvelope env)) maxTries failing)
            queueUrl)
          [ev] (initContext fb tb 1) =
        { fromBlock := fb, toBlock := tb, eventCount := 1
        , processedCount := 1, failedCount := 0 } := by
  have hstep : processEvent (fun _ => Except.ok ts)
      (fun env =>
        sendMessageToSQSModel c cfg clock (Except.ok (renderEnvelope env)) maxTries failing)
      queueUrl ev = Except.ok () := by
    simp only [processEvent, hargs, Except.bind]
    exact sendMessage_ok_of_serialized
      (renderMigrationBody "TokenMigrated" (transformEvent a ts ev.transactionHash)
        ev.transactionHash ev.transactionIndex ev.logIndex ev.blockNumber)
      (fun env =>
        sendMessageToSQSModel c cfg clock (Except.ok (renderEnvelope env)) maxTries failing)
      queueUrl ev.transactionHash ev.transactionIndex ev.logIndex ev.blockNumber
  refine ⟨?_, hstep, ?_⟩
  · intro env
    simp [sendMessageToSQSModel, Except.bind, sqsRetryLoop_eq,
      attemptsMade_of_fail failing hfail, deliveryOutcome_of_fail failing hfail, sentRequest]
  · simp [processWindowEvents, hstep, initContext]

/-- Witness for the amended C1 at a concrete input: the concrete
token-migration event, published through a transport that always throws, is
processed without an exception escaping. -/
theorem exhausted_delivery_counted_as_processed_witness :
    processEvent (fun _ => Except.ok 1700000000)
      (fun env =>
        sendMessageToSQSModel cexCrypto cexCfg cexClock (Except.ok (renderEnvelope env)) 3
          (fun _ => Except.error "ECONNRESET"))
      "https://queue" cexEventMigrated = Except.ok () :=
  (exhausted_delivery_counted_as_processed cexCrypto cexCfg cexClock "https://queue" 3
    (fun _ => Except.error "ECONNRESET") cexEventMigrated cexArgsMigrated 1700000000 100 120
    rfl (fun _ => ⟨"ECONNRESET", rfl⟩)).2.1

/-- C5: when the log query throws, the iteration ends in the window-level
`catch`: `fromBlock` is left unchanged and the pause is double the normal
inter-window delay; and the retry is unbounded — after any number of
iterations against a persistently failing query, the loop still targets the
same `fromBlock`, so no block range is ever skipped. -/
theorem window_failure_same_fromBlock_double_delay (retryDelay windowSize currentBlock : Nat)
    (query : Nat → Nat → Except Err (List RawEvent)) (step : RawEvent → Except Err Unit)
    (fromBlock : Nat)
    (hq : ∀ f t, ∃ e, query f t = Except.error e) :
    scanIteration retryDelay windowSize currentBlock query step fromBlock =
      IterOutcome.windowFailed fromBlock (retryDelay * 2) ∧
    ∀ n, scanFromBlockAfter retryDelay windowSize currentBlock query step n fromBlock =
      fromBlock := by
  have hiter : ∀ fb, scanIteration retryDelay windowSize currentBlock query step fb =
      IterOutcome.windowFailed fb (retryDelay * 2) := by
    intro fb
    obtain ⟨e, he⟩ := hq fb (min (fb + windowSize) currentBlock)
    simp [scanIteration, he]
  refine ⟨hiter fromBlock, ?_⟩
  intro n
  induction n with
  | zero => rfl
  | succ n ih =>
    by_cases h : fromBlock < currentBlock <;> simp [scanFromBlockAfter, hiter, h, ih]

/-- Witness for C5 at a concrete input: a failing query on window starting at
block 100 yields a retry of `fromBlock = 100` after a delay of 10, twice the
normal delay of 5. -/
theorem window_failure_same_fromBlock_double_delay_witness :
    scanIteration 5 50 500 failQuery okStep 100 = IterOutcome.windowFailed 100 10 :=
  (window_failure_same_fromBlock_double_delay 5 50 500 failQuery okStep 100
    (fun _ _ => ⟨"rate limited", rfl⟩)).1

/-- C6: each iteration computes
`toBlock = min(fromBlock + windowSize, currentBlock)` with `currentBlock`
captured once at loop start, and a window processed without a window-level
error advances the loop to `fromBlock = toBlock + 1`; concretely, with
`fromBlock = 100`, `windowSize = 50` and chain head 120 the scan produces the
single window (100, 120), and with chain head 500 it produces (100, 150)
first and continues from block 151. -/
theorem window_bounds_and_advance (retryDelay windowSize currentBlock : Nat)
    (query : Nat → Nat → Except Err (List RawEvent)) (step : RawEvent → Except Err Unit)
    (fromBlock : Nat) (events : List RawEvent)
    (hq : query fromBlock (min (fromBlock + windowSize) currentBlock) = Except.ok events) :
    scanIteration retryDelay windowSize currentBlock query step fromBlock =
      IterOutcome.advanced
        (processWindowEvents step events
          (initContext fromBlock (min (fromBlock + windowSize) currentBlock) events.length))
        (min (fromBlock + windowSize) currentBlock + 1) retryDelay ∧
    scanLoopWindows 5 50 120 okQuery okStep 10 100 = [(100, 120)] ∧
    (scanLoopWindows 5 50 500 okQuery okStep 12 100).take 2 = [(100, 150), (151, 201)] := by
  refine ⟨?_, rfl, rfl⟩
  simp [scanIteration, hq]

/-- Witness for C6 at a concrete input: with chain head 120 and window size
50, the window starting at 100 is bounded at 120 and, empty of events,
advances the loop to 121 with the normal delay of 5. -/
theorem window_bounds_and_advance_witness :
    scanIteration 5 50 120 okQuery okStep 100 =
      IterOutcome.advanced (initContext 100 120 0) 121 5 :=
  (window_bounds_and_advance 5 50 120 okQuery okStep 100 [] rfl).1

/-- C4 counterexample: with an invalid region, configuration validation
fails, the scanner stops before scanning anything — but the caught error
leads to a normal return, so the process exits with status zero, refuting the
claim of a non-zero exit status on configuration failure (and hence also the
claim that status zero occurs only on normal scan completion). -/
theorem config_failure_exits_zero_cex :
    validateAwsConfig (some cexBadCfg) (Except.ok ()) =
      Except.error "REGION_INVALID: Invalid region in config" ∧
    scanTokenMigratedEvents (some cexBadCfg) (Except.ok ()) (Except.ok ()) =
      (false, Except.ok ()) ∧
    mainExitStatus (some cexBadCfg) (Except.ok ()) (Except.ok ()) = 0 :=
  ⟨rfl, rfl, rfl⟩

/-- C4 (amended): whenever configuration validation fails, the process stops
before any scanning — no events are processed — but the error is caught and
logged, so the exit status is zero; the exit status is non-zero exactly when
an exception escapes the scan body itself, and zero on normal completion. -/
theorem scanner_exit_status (cfg cfg2 : Option AwsCfg)
    (probe probe2 scanBody : Except Err Unit) (e e2 : Err)
    (h : validateAwsConfig cfg probe = Except.error e)
    (h2 : validateAwsConfig cfg2 probe2 = Except.ok ()) :
    scanTokenMigratedEvents cfg probe scanBody = (false, Except.ok ()) ∧
    mainExitStatus cfg probe scanBody = 0 ∧
    mainExitStatus cfg2 probe2 (Except.error e2) = 1 ∧
    mainExitStatus cfg2 probe2 (Except.ok ()) = 0 := by
  refine ⟨?_, ?_, ?_, ?_⟩ <;>
    simp [scanTokenMigratedEvents, mainExitStatus, h, h2]

/-- Witness for the amended C4 at concrete inputs: with a valid
configuration, an exception escaping the scan body exits with status 1. -/
theorem scanner_exit_status_witness :
    mainExitStatus (some cexGoodCfg) (Except.ok ()) (Except.error "boom") = 1 :=
  (scanner_exit_status (some cexBadCfg) (some cexGoodCfg) (Except.ok ()) (Except.ok ())
    (Except.ok ()) "REGION_INVALID: Invalid region in config" "boom" rfl rfl).2.2.1

end BackupData
